import Mathlib

/-!
Shallow embedding of the go-webgpu-examples frame-presentation loop.

The repository's tutorial programs share one control structure: a `State`
holding GPU handles, a `Resize` routine that rebuilds the swap chain, a
`Render` routine that acquires a surface view, records one render pass and
presents, a `Destroy` teardown chain, and a main loop that classifies render
errors by substring matching ("Lost" / "Outdated" / "Timeout") and either
reconfigures, retries or panics.

GPU calls are external: we model them by an explicit backend record of
`Except String` results (one per fallible call) and an event trace recording
every GPU-side effect (creations, drops, render-pass commands, submissions,
presentations).  Handles held by the Go structs are `Option` values: `none`
models a nil pointer.  A Go `panic` is modelled by an `Option` result of the
whole operation being `none`.
-/

/-- Error strings used by the loop's classification switch. -/
def lostStr : String := "Lost"

/-- Error string for the outdated-surface case. -/
def outdatedStr : String := "Outdated"

/-- Error string for the acquisition-timeout case. -/
def timeoutStr : String := "Timeout"

/-- Substring test on character lists, mirroring Go's strings.Contains. -/
def listContainsSub : List Char → List Char → Bool
  | [], needle => needle.isEmpty
  | c :: t, needle => List.isPrefixOf needle (c :: t) || listContainsSub t needle

/-- Go's strings.Contains s substr. -/
def containsStr (hay needle : String) : Bool :=
  listContainsSub hay.data needle.data

/-- dpi.PhysicalSize with uint32 dimensions (modelled as Nat). -/
structure PhysicalSize where
  Width : Nat
  Height : Nat
deriving DecidableEq, Repr

/-- wgpu.SwapChainDescriptor: the fields the examples set. -/
structure SwapChainDescriptor where
  Usage : Nat
  Format : Nat
  Width : Nat
  Height : Nat
  PresentMode : Nat
deriving DecidableEq, Repr

/-- Kinds of GPU resources created and dropped by the examples. -/
inductive ResKind where
  | instanceK | surfaceK | adapterK | deviceK | swapChainK | bglK
  | textureK | viewK | samplerK | bindGroupK | shaderK | pipeLayoutK
  | pipelineK | bufferK
deriving DecidableEq, Repr

/-- Load operation of a render-pass color attachment. -/
inductive LoadOp where
  | Clear | Load
deriving DecidableEq, Repr

/-- One observable GPU-side effect. -/
inductive WEvent where
  | create (k : ResKind)
  | drop (k : ResKind)
  | writeTexture
  | beginRenderPass (load : LoadOp)
  | setPipeline
  | setBindGroup (cartoon : Bool)
  | setVertexBuffer (challenge : Bool)
  | setIndexBuffer (challenge : Bool)
  | drawIndexed (count : Nat)
  | endPass
  | submit
  | present
deriving DecidableEq, Repr

/-- The Texture aggregate of texture.go. -/
structure Texture where
  texture : Option Unit
  view : Option Unit
  sampler : Option Unit
deriving DecidableEq, Repr

/-- Release a nullable handle: drop if non-nil, emit nothing otherwise. -/
def releaseU (o : Option Unit) (k : ResKind) : List WEvent :=
  match o with
  | some _ => [WEvent.drop k]
  | none => []

/-- (*Texture).Destroy: drop sampler, view, texture in this order, each
guarded by a nil check, nulling the field after its drop. -/
def Texture.Destroy (t : Texture) : Texture × List WEvent :=
  (⟨none, none, none⟩,
    releaseU t.sampler ResKind.samplerK ++ releaseU t.view ResKind.viewK ++
      releaseU t.texture ResKind.textureK)

/-- Release a nullable Texture via Texture.Destroy. -/
def releaseTex (o : Option Texture) : List WEvent :=
  match o with
  | some t => (Texture.Destroy t).2
  | none => []

/-- Release the nullable swap chain handle. -/
def releaseSC (o : Option SwapChainDescriptor) : List WEvent :=
  match o with
  | some _ => [WEvent.drop ResKind.swapChainK]
  | none => []

/-- The State aggregate of the textured example (src/unnamed/part_000).
A swap chain is represented by the descriptor it was created from, so that
its size is observable. -/
structure State where
  surface : Option Unit
  swapChain : Option SwapChainDescriptor
  device : Option Unit
  queue : Option Unit
  config : Option SwapChainDescriptor
  size : PhysicalSize
  renderPipeline : Option Unit
  vertexBuffer : Option Unit
  indexBuffer : Option Unit
  numIndices : Nat
  diffuseTexture : Option Texture
  diffuseBindGroup : Option Unit
  cartoonTexture : Option Texture
  cartoonBindGroup : Option Unit
  isSpacePressed : Bool
deriving DecidableEq, Repr

/-- (*State).Destroy: the source's reverse-order nil-guarded teardown chain.
config and queue are nulled without a GPU drop, exactly as in the source. -/
def State.Destroy (s : State) : State × List WEvent :=
  ({ s with
      surface := none
      swapChain := none
      device := none
      queue := none
      config := none
      renderPipeline := none
      vertexBuffer := none
      indexBuffer := none
      diffuseTexture := none
      diffuseBindGroup := none
      cartoonTexture := none
      cartoonBindGroup := none },
    releaseU s.indexBuffer ResKind.bufferK ++
      releaseU s.vertexBuffer ResKind.bufferK ++
      releaseU s.renderPipeline ResKind.pipelineK ++
      releaseU s.cartoonBindGroup ResKind.bindGroupK ++
      releaseTex s.cartoonTexture ++
      releaseU s.diffuseBindGroup ResKind.bindGroupK ++
      releaseTex s.diffuseTexture ++
      releaseSC s.swapChain ++
      releaseU s.device ResKind.deviceK ++
      releaseU s.surface ResKind.surfaceK)

/-- (*State).Resize.  `scb` is the backend's answer to the one GPU call
`device.CreateSwapChain`.  Result `none` models a Go panic (either the
explicit `panic(err)` or a nil-pointer dereference of s.config / s.device);
otherwise the updated state and the trace of GPU calls performed. -/
def State.Resize (s : State) (newSize : PhysicalSize)
    (scb : Except String Unit) : Option (State × List WEvent) :=
  if newSize.Width > 0 ∧ newSize.Height > 0 then
    match s.config with
    | none => none
    | some cfg =>
      let cfg' : SwapChainDescriptor :=
        { cfg with Width := newSize.Width, Height := newSize.Height }
      let dropT : List WEvent :=
        match s.swapChain with
        | some _ => [WEvent.drop ResKind.swapChainK]
        | none => []
      match s.device with
      | none => none
      | some _ =>
        match scb with
        | Except.error _ => none
        | Except.ok _ =>
          some ({ s with
                    size := newSize
                    config := some cfg'
                    swapChain := some cfg' },
                dropT ++ [WEvent.create ResKind.swapChainK])
  else
    some (s, [])

/-- Backend answers for the two fallible GPU calls inside Render:
swapChain.GetCurrentTextureView and device.CreateCommandEncoder. -/
structure FrameBackend where
  acquire : Except String Unit
  encoder : Except String Unit
deriving Repr

/-- (*State).Render of the textured example.  Result `none` models a Go
nil-pointer panic (swapChain, device or queue being nil); otherwise the
returned error value and the trace.  A successful acquisition creates a
texture view; the deferred view.Drop runs on every non-panicking exit. -/
def State.Render (s : State) (b : FrameBackend) :
    Option (Except String Unit × List WEvent) :=
  match s.swapChain with
  | none => none
  | some _ =>
    match b.acquire with
    | Except.error e => some (Except.error e, [])
    | Except.ok _ =>
      match s.device with
      | none => none
      | some _ =>
        match b.encoder with
        | Except.error e =>
          some (Except.error e,
            [WEvent.create ResKind.viewK, WEvent.drop ResKind.viewK])
        | Except.ok _ =>
          match s.queue with
          | none => none
          | some _ =>
            some (Except.ok (),
              [WEvent.create ResKind.viewK,
               WEvent.beginRenderPass LoadOp.Clear,
               WEvent.setPipeline,
               WEvent.setBindGroup s.isSpacePressed,
               WEvent.setVertexBuffer false,
               WEvent.setIndexBuffer false,
               WEvent.drawIndexed s.numIndices,
               WEvent.endPass,
               WEvent.submit,
               WEvent.present,
               WEvent.drop ResKind.viewK])

/-- One iteration of the main loop's error handling: call Render, then the
switch on the error string.  Returns the next state, the GPU trace and the
list of arguments of Resize calls performed; `none` models a panic. -/
def loopBody (s : State) (fb : FrameBackend) (scb : Except String Unit) :
    Option (State × List WEvent × List PhysicalSize) :=
  match s.Render fb with
  | none => none
  | some (res, t) =>
    match res with
    | Except.ok _ => some (s, t, [])
    | Except.error e =>
      if containsStr e lostStr then
        match s.Resize s.size scb with
        | none => none
        | some (s', t') => some (s', t ++ t', [s.size])
      else if containsStr e outdatedStr then
        match s.Resize s.size scb with
        | none => none
        | some (s', t') => some (s', t ++ t', [s.size])
      else if containsStr e timeoutStr then
        some (s, t, [])
      else
        none

/-- The main loop driven by a finite schedule of backend answers, counting
the Render calls issued.  A panic (`none` from loopBody) terminates the
process abnormally: the count includes the failing call and the final state
is `none`. -/
def runLoop (s : State) :
    List (FrameBackend × Except String Unit) → Nat × Option State
  | [] => (0, some s)
  | (fb, scb) :: rest =>
    match loopBody s fb scb with
    | none => (1, none)
    | some (s', _, _) =>
      let r := runLoop s' rest
      (r.1 + 1, r.2)

/-- Is the event a creation of a resource of kind k? -/
def isCreate (k : ResKind) : WEvent → Bool
  | WEvent.create k' => k' == k
  | _ => false

/-- Is the event a drop of a resource of kind k? -/
def isDrop (k : ResKind) : WEvent → Bool
  | WEvent.drop k' => k' == k
  | _ => false

/-- Number of creations of kind k in a trace. -/
def createCount (k : ResKind) (tr : List WEvent) : Nat :=
  tr.countP (isCreate k)

/-- Number of drops of kind k in a trace. -/
def dropCount (k : ResKind) (tr : List WEvent) : Nat :=
  tr.countP (isDrop k)

/-- All resource kinds. -/
def allKinds : List ResKind :=
  [ResKind.instanceK, ResKind.surfaceK, ResKind.adapterK, ResKind.deviceK,
   ResKind.swapChainK, ResKind.bglK, ResKind.textureK, ResKind.viewK,
   ResKind.samplerK, ResKind.bindGroupK, ResKind.shaderK, ResKind.pipeLayoutK,
   ResKind.pipelineK, ResKind.bufferK]

/-- A trace is balanced when, for every resource kind, it drops exactly as
many objects as it creates: nothing created is leaked. -/
def balancedB (tr : List WEvent) : Bool :=
  allKinds.all (fun k => createCount k tr == dropCount k tr)

/-- Backend answers for the fallible calls of TextureFromPNGBytes:
png.Decode, device.CreateTexture and device.CreateSampler. -/
structure TexBackend where
  decode : Except String Unit
  createTexture : Except String Unit
  createSampler : Except String Unit
deriving Repr

/-- TextureFromImage of texture.go: create the texture, write the pixels,
create the view and the sampler; on any error the deferred t.Destroy
releases what was already built and the returned pointer is nil. -/
def TextureFromImage (b : TexBackend) : Option Texture × Option String × List WEvent :=
  match b.createTexture with
  | Except.error e =>
    let t : Texture := { texture := none, view := none, sampler := none }
    (none, some e, (Texture.Destroy t).2)
  | Except.ok _ =>
    let tr1 : List WEvent :=
      [WEvent.create ResKind.textureK, WEvent.writeTexture,
       WEvent.create ResKind.viewK]
    match b.createSampler with
    | Except.error e =>
      let t : Texture := { texture := some (), view := some (), sampler := none }
      (none, some e, tr1 ++ (Texture.Destroy t).2)
    | Except.ok _ =>
      (some { texture := some (), view := some (), sampler := some () },
       none, tr1 ++ [WEvent.create ResKind.samplerK])

/-- TextureFromPNGBytes of texture.go: decode the PNG, then defer to
TextureFromImage.  A decode failure returns nil with no GPU call made. -/
def TextureFromPNGBytes (b : TexBackend) : Option Texture × Option String × List WEvent :=
  match b.decode with
  | Except.error e => (none, some e, [])
  | Except.ok _ => TextureFromImage b

/-- INDICES of the pentagon examples. -/
def INDICES : List Nat := [0, 1, 4, 1, 2, 4, 2, 3, 4]

/-- Backend answers for the fallible GPU calls of InitState of the textured
example, in call order, plus the preferred surface format. -/
structure InitBackend where
  adapter : Except String Unit
  device : Except String Unit
  preferredFormat : Nat
  createSwapChain : Except String Unit
  bindGroupLayout : Except String Unit
  diffuseTex : TexBackend
  diffuseBindGroup : Except String Unit
  cartoonTex : TexBackend
  cartoonBindGroup : Except String Unit
  shader : Except String Unit
  pipelineLayout : Except String Unit
  renderPipeline : Except String Unit
  vertexBuffer : Except String Unit
  indexBuffer : Except String Unit
deriving Repr

/-- An error return from InitState: the deferred Drops of the local handles
run in last-in-first-out order, then the deferred error check calls
s.Destroy and nulls the returned pointer. -/
def initErrExit (s : State) (defers : List ResKind) (e : String)
    (tr : List WEvent) : Option State × Option String × List WEvent :=
  (none, some e, tr ++ defers.map WEvent.drop ++ (State.Destroy s).2)

/-- InitState of the textured example: the full construction sequence with
every fallible step answered by the backend.  Locals (instance, adapter,
texture bind group layout, shader, pipeline layout) are dropped by defers;
fields are torn down by the deferred s.Destroy on error. -/
def InitState (winSize : PhysicalSize) (b : InitBackend) :
    Option State × Option String × List WEvent :=
  let s0 : State :=
    { surface := none, swapChain := none, device := none, queue := none,
      config := none, size := winSize, renderPipeline := none,
      vertexBuffer := none, indexBuffer := none, numIndices := 0,
      diffuseTexture := none, diffuseBindGroup := none, cartoonTexture := none,
      cartoonBindGroup := none, isSpacePressed := false }
  let tr1 : List WEvent :=
    [WEvent.create ResKind.instanceK, WEvent.create ResKind.surfaceK]
  let s1 : State := { s0 with surface := some () }
  match b.adapter with
  | Except.error e => initErrExit s1 [ResKind.instanceK] e tr1
  | Except.ok _ =>
    let tr2 := tr1 ++ [WEvent.create ResKind.adapterK]
    let defers1 := [ResKind.adapterK, ResKind.instanceK]
    match b.device with
    | Except.error e => initErrExit s1 defers1 e tr2
    | Except.ok _ =>
      let tr3 := tr2 ++ [WEvent.create ResKind.deviceK]
      let s2 : State := { s1 with device := some (), queue := some () }
      let cfg : SwapChainDescriptor :=
        { Usage := 16, Format := b.preferredFormat, Width := winSize.Width,
          Height := winSize.Height, PresentMode := 2 }
      let s3 : State := { s2 with config := some cfg }
      match b.createSwapChain with
      | Except.error e => initErrExit s3 defers1 e tr3
      | Except.ok _ =>
        let tr4 := tr3 ++ [WEvent.create ResKind.swapChainK]
        let s4 : State := { s3 with swapChain := some cfg }
        match b.bindGroupLayout with
        | Except.error e => initErrExit s4 defers1 e tr4
        | Except.ok _ =>
          let tr5 := tr4 ++ [WEvent.create ResKind.bglK]
          let defers2 := [ResKind.bglK, ResKind.adapterK, ResKind.instanceK]
          match TextureFromPNGBytes b.diffuseTex with
          | (dt, deOpt, dtr) =>
            let s5 : State := { s4 with diffuseTexture := dt }
            let tr6 := tr5 ++ dtr
            match deOpt with
            | some e => initErrExit s5 defers2 e tr6
            | none =>
              match b.diffuseBindGroup with
              | Except.error e => initErrExit s5 defers2 e tr6
              | Except.ok _ =>
                let tr7 := tr6 ++ [WEvent.create ResKind.bindGroupK]
                let s6 : State := { s5 with diffuseBindGroup := some () }
                match TextureFromPNGBytes b.cartoonTex with
                | (ct, ceOpt, ctr) =>
                  let s7 : State := { s6 with cartoonTexture := ct }
                  let tr8 := tr7 ++ ctr
                  match ceOpt with
                  | some e => initErrExit s7 defers2 e tr8
                  | none =>
                    match b.cartoonBindGroup with
                    | Except.error e => initErrExit s7 defers2 e tr8
                    | Except.ok _ =>
                      let tr9 := tr8 ++ [WEvent.create ResKind.bindGroupK]
                      let s8 : State := { s7 with cartoonBindGroup := some () }
                      match b.shader with
                      | Except.error e => initErrExit s8 defers2 e tr9
                      | Except.ok _ =>
                        let tr10 := tr9 ++ [WEvent.create ResKind.shaderK]
                        let defers3 := ResKind.shaderK :: defers2
                        match b.pipelineLayout with
                        | Except.error e => initErrExit s8 defers3 e tr10
                        | Except.ok _ =>
                          let tr11 := tr10 ++ [WEvent.create ResKind.pipeLayoutK]
                          let defers4 := ResKind.pipeLayoutK :: defers3
                          match b.renderPipeline with
                          | Except.error e => initErrExit s8 defers4 e tr11
                          | Except.ok _ =>
                            let tr12 := tr11 ++ [WEvent.create ResKind.pipelineK]
                            let s9 : State := { s8 with renderPipeline := some () }
                            match b.vertexBuffer with
                            | Except.error e => initErrExit s9 defers4 e tr12
                            | Except.ok _ =>
                              let tr13 := tr12 ++ [WEvent.create ResKind.bufferK]
                              let s10 : State := { s9 with vertexBuffer := some () }
                              match b.indexBuffer with
                              | Except.error e => initErrExit s10 defers4 e tr13
                              | Except.ok _ =>
                                let tr14 := tr13 ++ [WEvent.create ResKind.bufferK]
                                let s11 : State :=
                                  { s10 with
                                      indexBuffer := some ()
                                      numIndices := INDICES.length }
                                (some s11, none,
                                  tr14 ++ defers4.map WEvent.drop)

/-- n successive Render calls against a fixed backend, collecting the
concatenated trace; `none` when any call panics or returns an error. -/
def renderN (s : State) (fb : FrameBackend) : Nat → Option (List WEvent)
  | 0 => some []
  | n + 1 =>
    match s.Render fb with
    | some (Except.ok _, t) => Option.map (fun r => t ++ r) (renderN s fb n)
    | _ => none

namespace Tutorial4

/-- The State aggregate of tutorial4-challenge. -/
structure State where
  surface : Option Unit
  swapChain : Option SwapChainDescriptor
  device : Option Unit
  queue : Option Unit
  config : Option SwapChainDescriptor
  size : PhysicalSize
  renderPipeline : Option Unit
  vertexBuffer : Option Unit
  indexBuffer : Option Unit
  numIndices : Nat
  challengeVertexBuffer : Option Unit
  challengeIndexBuffer : Option Unit
  numChallengeIndices : Nat
  useComplex : Bool
deriving DecidableEq, Repr

/-- (*State).Destroy of tutorial4-challenge: reverse-order nil-guarded
teardown. -/
def State.Destroy (s : State) : State × List WEvent :=
  ({ s with
      surface := none
      swapChain := none
      device := none
      queue := none
      config := none
      renderPipeline := none
      vertexBuffer := none
      indexBuffer := none
      challengeVertexBuffer := none
      challengeIndexBuffer := none },
    releaseU s.challengeIndexBuffer ResKind.bufferK ++
      releaseU s.challengeVertexBuffer ResKind.bufferK ++
      releaseU s.indexBuffer ResKind.bufferK ++
      releaseU s.vertexBuffer ResKind.bufferK ++
      releaseU s.renderPipeline ResKind.pipelineK ++
      releaseSC s.swapChain ++
      releaseU s.device ResKind.deviceK ++
      releaseU s.surface ResKind.surfaceK)

/-- numVertices of the procedural circle. -/
def numVertices : Nat := 100

/-- numTriangles of the triangle fan. -/
def numTriangles : Nat := numVertices - 2

/-- The index-filling loop of InitState (lines writing challengeIndices):
`k` iterations remain, `i` is the loop counter starting at 1; each step
writes i+1, i, 0.  Indices are uint16, reduced mod 2^16. -/
def buildChallengeIndices : Nat → Nat → List Nat
  | 0, _ => []
  | k + 1, i => (i + 1) % 65536 :: i % 65536 :: 0 :: buildChallengeIndices k (i + 1)

/-- The challenge index list generated by InitState. -/
def challengeIndices : List Nat := buildChallengeIndices numTriangles 1

/-- Backend answers for the fallible GPU calls of tutorial4-challenge's
InitState, in call order, plus the first supported surface format. -/
structure InitBackend where
  adapter : Except String Unit
  device : Except String Unit
  surfaceFormat : Nat
  createSwapChain : Except String Unit
  shader : Except String Unit
  pipelineLayout : Except String Unit
  renderPipeline : Except String Unit
  vertexBuffer : Except String Unit
  indexBuffer : Except String Unit
  challengeVertexBuffer : Except String Unit
  challengeIndexBuffer : Except String Unit
deriving Repr

/-- Error return from tutorial4-challenge's InitState: deferred local drops
in last-in-first-out order, then the deferred s.Destroy. -/
def initErrExit (s : State) (defers : List ResKind) (e : String)
    (tr : List WEvent) : Option State × Option String × List WEvent :=
  (none, some e, tr ++ defers.map WEvent.drop ++ (State.Destroy s).2)

/-- InitState of tutorial4-challenge.  The returned State on success has the
pentagon buffers, the challenge buffers and numIndices set; the field
numChallengeIndices is never assigned, keeping its zero value from the
State literal. -/
def InitState (winSize : PhysicalSize) (b : InitBackend) :
    Option State × Option String × List WEvent :=
  let s0 : State :=
    { surface := none, swapChain := none, device := none, queue := none,
      config := none, size := winSize, renderPipeline := none,
      vertexBuffer := none, indexBuffer := none, numIndices := 0,
      challengeVertexBuffer := none, challengeIndexBuffer := none,
      numChallengeIndices := 0, useComplex := false }
  let tr1 : List WEvent :=
    [WEvent.create ResKind.instanceK, WEvent.create ResKind.surfaceK]
  let s1 : State := { s0 with surface := some () }
  match b.adapter with
  | Except.error e => initErrExit s1 [ResKind.instanceK] e tr1
  | Except.ok _ =>
    let tr2 := tr1 ++ [WEvent.create ResKind.adapterK]
    let defers1 := [ResKind.adapterK, ResKind.instanceK]
    match b.device with
    | Except.error e => initErrExit s1 defers1 e tr2
    | Except.ok _ =>
      let tr3 := tr2 ++ [WEvent.create ResKind.deviceK]
      let s2 : State := { s1 with device := some (), queue := some () }
      let cfg : SwapChainDescriptor :=
        { Usage := 16, Format := b.surfaceFormat, Width := winSize.Width,
          Height := winSize.Height, PresentMode := 0 }
      let s3 : State := { s2 with config := some cfg }
      match b.createSwapChain with
      | Except.error e => initErrExit s3 defers1 e tr3
      | Except.ok _ =>
        let tr4 := tr3 ++ [WEvent.create ResKind.swapChainK]
        let s4 : State := { s3 with swapChain := some cfg }
        match b.shader with
        | Except.error e => initErrExit s4 defers1 e tr4
        | Except.ok _ =>
          let tr5 := tr4 ++ [WEvent.create ResKind.shaderK]
          let defers2 := ResKind.shaderK :: defers1
          match b.pipelineLayout with
          | Except.error e => initErrExit s4 defers2 e tr5
          | Except.ok _ =>
            let tr6 := tr5 ++ [WEvent.create ResKind.pipeLayoutK]
            let defers3 := ResKind.pipeLayoutK :: defers2
            match b.renderPipeline with
            | Except.error e => initErrExit s4 defers3 e tr6
            | Except.ok _ =>
              let tr7 := tr6 ++ [WEvent.create ResKind.pipelineK]
              let s5 : State := { s4 with renderPipeline := some () }
              match b.vertexBuffer with
              | Except.error e => initErrExit s5 defers3 e tr7
              | Except.ok _ =>
                let tr8 := tr7 ++ [WEvent.create ResKind.bufferK]
                let s6 : State := { s5 with vertexBuffer := some () }
                match b.indexBuffer with
                | Except.error e => initErrExit s6 defers3 e tr8
                | Except.ok _ =>
                  let tr9 := tr8 ++ [WEvent.create ResKind.bufferK]
                  let s7 : State :=
                    { s6 with
                        indexBuffer := some ()
                        numIndices := INDICES.length }
                  match b.challengeVertexBuffer with
                  | Except.error e => initErrExit s7 defers3 e tr9
                  | Except.ok _ =>
                    let tr10 := tr9 ++ [WEvent.create ResKind.bufferK]
                    let s8 : State := { s7 with challengeVertexBuffer := some () }
                    match b.challengeIndexBuffer with
                    | Except.error e => initErrExit s8 defers3 e tr10
                    | Except.ok _ =>
                      let tr11 := tr10 ++ [WEvent.create ResKind.bufferK]
                      let s9 : State := { s8 with challengeIndexBuffer := some () }
                      (some s9, none, tr11 ++ defers3.map WEvent.drop)

/-- (*State).Render of tutorial4-challenge: the useComplex branch binds the
challenge buffers and issues DrawIndexed with s.numChallengeIndices. -/
def State.Render (s : State) (b : FrameBackend) :
    Option (Except String Unit × List WEvent) :=
  match s.swapChain with
  | none => none
  | some _ =>
    match b.acquire with
    | Except.error e => some (Except.error e, [])
    | Except.ok _ =>
      match s.device with
      | none => none
      | some _ =>
        match b.encoder with
        | Except.error e =>
          some (Except.error e,
            [WEvent.create ResKind.viewK, WEvent.drop ResKind.viewK])
        | Except.ok _ =>
          match s.queue with
          | none => none
          | some _ =>
            let draws : List WEvent :=
              if s.useComplex then
                [WEvent.setVertexBuffer true, WEvent.setIndexBuffer true,
                 WEvent.drawIndexed s.numChallengeIndices]
              else
                [WEvent.setVertexBuffer false, WEvent.setIndexBuffer false,
                 WEvent.drawIndexed s.numIndices]
            some (Except.ok (),
              [WEvent.create ResKind.viewK,
               WEvent.beginRenderPass LoadOp.Clear,
               WEvent.setPipeline] ++ draws ++
              [WEvent.endPass, WEvent.submit, WEvent.present,
               WEvent.drop ResKind.viewK])

end Tutorial4

/-- Is the event the start of a render pass with the given load op? -/
def isBeginPass (l : LoadOp) : WEvent → Bool
  | WEvent.beginRenderPass l' => l' == l
  | _ => false

/-- Is the event a queue submission? -/
def isSubmitEv : WEvent → Bool
  | WEvent.submit => true
  | _ => false

/-- Is the event a presentation request? -/
def isPresentEv : WEvent → Bool
  | WEvent.present => true
  | _ => false

/-- An error string matching none of the loop's recognized substrings. -/
def unknownStr : String := "Unknown"

/-- A healthy per-frame backend: acquisition and encoder creation succeed. -/
def fbGood : FrameBackend := { acquire := Except.ok (), encoder := Except.ok () }

/-- A frame backend whose acquisition fails with an Outdated message. -/
def fbOutdated : FrameBackend :=
  { acquire := Except.error outdatedStr, encoder := Except.ok () }

/-- A frame backend whose acquisition fails with a Timeout message. -/
def fbTimeout : FrameBackend :=
  { acquire := Except.error timeoutStr, encoder := Except.ok () }

/-- A frame backend whose acquisition fails with an unrecognized message. -/
def fbUnknown : FrameBackend :=
  { acquire := Except.error unknownStr, encoder := Except.ok () }

/-- A texture backend with every call succeeding. -/
def allOkTexBackend : TexBackend :=
  { decode := Except.ok (), createTexture := Except.ok (),
    createSampler := Except.ok () }

/-- A texture backend whose sampler creation fails. -/
def samplerFailTexBackend : TexBackend :=
  { decode := Except.ok (), createTexture := Except.ok (),
    createSampler := Except.error unknownStr }

/-- An InitState backend with every call succeeding. -/
def allOkInitBackend : InitBackend :=
  { adapter := Except.ok (), device := Except.ok (), preferredFormat := 24,
    createSwapChain := Except.ok (), bindGroupLayout := Except.ok (),
    diffuseTex := allOkTexBackend, diffuseBindGroup := Except.ok (),
    cartoonTex := allOkTexBackend, cartoonBindGroup := Except.ok (),
    shader := Except.ok (), pipelineLayout := Except.ok (),
    renderPipeline := Except.ok (), vertexBuffer := Except.ok (),
    indexBuffer := Except.ok () }

/-- An InitState backend failing at the last step (index buffer creation). -/
def idxFailInitBackend : InitBackend :=
  { allOkInitBackend with indexBuffer := Except.error unknownStr }

/-- The swap chain descriptor produced by a 640×480 initialization with
format 24. -/
def cfg640 : SwapChainDescriptor :=
  { Usage := 16, Format := 24, Width := 640, Height := 480, PresentMode := 2 }

/-- The state InitState returns on full success at 640×480 / format 24. -/
def initOkState : State :=
  { surface := some (), swapChain := some cfg640, device := some (),
    queue := some (), config := some cfg640, size := ⟨640, 480⟩,
    renderPipeline := some (), vertexBuffer := some (), indexBuffer := some (),
    numIndices := INDICES.length,
    diffuseTexture := some { texture := some (), view := some (), sampler := some () },
    diffuseBindGroup := some (),
    cartoonTexture := some { texture := some (), view := some (), sampler := some () },
    cartoonBindGroup := some (), isSpacePressed := false }

/-- A Tutorial4 backend with every call succeeding. -/
def t4AllOkBackend : Tutorial4.InitBackend :=
  { adapter := Except.ok (), device := Except.ok (), surfaceFormat := 24,
    createSwapChain := Except.ok (), shader := Except.ok (),
    pipelineLayout := Except.ok (), renderPipeline := Except.ok (),
    vertexBuffer := Except.ok (), indexBuffer := Except.ok (),
    challengeVertexBuffer := Except.ok (), challengeIndexBuffer := Except.ok () }

/-- The tutorial4-challenge swap chain descriptor at 640×480 / format 24. -/
def t4Cfg640 : SwapChainDescriptor :=
  { Usage := 16, Format := 24, Width := 640, Height := 480, PresentMode := 0 }

/-- The state tutorial4-challenge's InitState returns on full success at
640×480 / format 24. -/
def t4InitOkState : Tutorial4.State :=
  { surface := some (), swapChain := some t4Cfg640, device := some (),
    queue := some (), config := some t4Cfg640, size := ⟨640, 480⟩,
    renderPipeline := some (), vertexBuffer := some (), indexBuffer := some (),
    numIndices := INDICES.length, challengeVertexBuffer := some (),
    challengeIndexBuffer := some (), numChallengeIndices := 0,
    useComplex := false }

/-- A sample swap chain descriptor for concrete evaluations. -/
def sampleConfig : SwapChainDescriptor :=
  { Usage := 16, Format := 24, Width := 640, Height := 480, PresentMode := 2 }

/-- A sample texture with all three handles live. -/
def sampleTexture : Texture := { texture := some (), view := some (), sampler := some () }

/-- The sample state: every handle live, size 640×480, nine indices. -/
def sampleState : State :=
  { surface := some (), swapChain := some sampleConfig, device := some (),
    queue := some (), config := some sampleConfig, size := ⟨640, 480⟩,
    renderPipeline := some (), vertexBuffer := some (), indexBuffer := some (),
    numIndices := 9, diffuseTexture := some sampleTexture,
    diffuseBindGroup := some (), cartoonTexture := some sampleTexture,
    cartoonBindGroup := some (), isSpacePressed := false }

/-- Render never creates a swap chain: whatever the backend answers, the
trace of a non-panicking Render contains no swap-chain creation. -/
theorem render_no_swapchain_create (s : State) (fb : FrameBackend)
    (r : Except String Unit) (t : List WEvent)
    (h : s.Render fb = some (r, t)) : createCount ResKind.swapChainK t = 0 := by
  unfold State.Render at h
  repeat' split at h
  all_goals
    first
    | exact Option.noConfusion h
    | (rw [Option.some.injEq, Prod.mk.injEq] at h
       obtain ⟨h1, h2⟩ := h
       rw [← h2]
       simp [createCount, isCreate, List.countP_cons, List.countP_nil])

/-- n successful Render calls create no swap chain. -/
theorem renderN_no_swapchain_create (s : State) (fb : FrameBackend) :
    ∀ (n : Nat) (t : List WEvent), renderN s fb n = some t →
      createCount ResKind.swapChainK t = 0 := by
  intro n
  induction n with
  | zero =>
    intro t h
    simp [renderN] at h
    subst h
    simp [createCount]
  | succ n ih =>
    intro t h
    unfold renderN at h
    split at h
    · next r t0 u heq =>
      cases hrn : renderN s fb n with
      | none => rw [hrn] at h; simp at h
      | some rest =>
        rw [hrn] at h
        simp at h
        subst h
        rw [createCount, List.countP_append, ← createCount, ← createCount]
        rw [render_no_swapchain_create s fb _ _ heq, ih rest hrn]
    · simp at h

/-- The three possible result shapes of TextureFromPNGBytes. -/
theorem texFromPNG_cases (tb : TexBackend) :
    (∃ e, TextureFromPNGBytes tb = (none, some e, [])) ∨
    (∃ e, TextureFromPNGBytes tb =
      (none, some e,
       [WEvent.create ResKind.textureK, WEvent.writeTexture,
        WEvent.create ResKind.viewK, WEvent.drop ResKind.viewK,
        WEvent.drop ResKind.textureK])) ∨
    TextureFromPNGBytes tb =
      (some { texture := some (), view := some (), sampler := some () }, none,
       [WEvent.create ResKind.textureK, WEvent.writeTexture,
        WEvent.create ResKind.viewK, WEvent.create ResKind.samplerK]) := by
  cases hd : tb.decode with
  | error e => exact Or.inl ⟨e, by simp [TextureFromPNGBytes, hd]⟩
  | ok u =>
    cases hct : tb.createTexture with
    | error e =>
      exact Or.inl ⟨e, by
        simp [TextureFromPNGBytes, TextureFromImage, hd, hct, Texture.Destroy, releaseU]⟩
    | ok u2 =>
      cases hcs : tb.createSampler with
      | error e =>
        exact Or.inr (Or.inl ⟨e, by
          simp [TextureFromPNGBytes, TextureFromImage, hd, hct, hcs, Texture.Destroy, releaseU]⟩)
      | ok u3 =>
        exact Or.inr (Or.inr (by
          simp [TextureFromPNGBytes, TextureFromImage, hd, hct, hcs]))

set_option maxHeartbeats 2000000 in
/-- A successful InitState run creates the swap chain exactly once. -/
theorem initState_swapchain_once (w : PhysicalSize) (b : InitBackend) (s0 : State)
    (tr : List WEvent) (h : InitState w b = (some s0, none, tr)) :
    createCount ResKind.swapChainK tr = 1 := by
  unfold InitState at h
  rcases texFromPNG_cases b.diffuseTex with ⟨e1, hD⟩ | ⟨e1, hD⟩ | hD <;>
    rcases texFromPNG_cases b.cartoonTex with ⟨e2, hC⟩ | ⟨e2, hC⟩ | hC <;>
    simp only [hD, hC] at h <;>
    (repeat' split at h) <;>
    simp only [initErrExit, Prod.mk.injEq] at h <;>
    first
    | exact Option.noConfusion h.1
    | (rw [← h.2.2]; decide)

set_option maxHeartbeats 2000000 in
/-- A failing InitState run returns no state and leaks no resource: on
every error path the trace is balanced. -/
theorem initState_err_atomic (w : PhysicalSize) (b : InitBackend) (sOpt : Option State)
    (e : String) (tr : List WEvent)
    (h : InitState w b = (sOpt, some e, tr)) :
    sOpt = none ∧ balancedB tr = true := by
  unfold InitState at h
  rcases texFromPNG_cases b.diffuseTex with ⟨e1, hD⟩ | ⟨e1, hD⟩ | hD <;>
    rcases texFromPNG_cases b.cartoonTex with ⟨e2, hC⟩ | ⟨e2, hC⟩ | hC <;>
    simp only [hD, hC] at h <;>
    (repeat' split at h) <;>
    first
    | (simp only [initErrExit, State.Destroy, releaseU, releaseTex, releaseSC,
        Texture.Destroy, List.map, List.append_assoc, List.cons_append, List.nil_append,
        Prod.mk.injEq] at h
       exact ⟨h.1.symm, by rw [← h.2.2]; decide⟩)
    | (simp only [Prod.mk.injEq] at h
       exact Option.noConfusion h.2.1)

/-- A failing TextureFromImage run returns no texture and leaks nothing. -/
theorem texImage_err_atomic (tb : TexBackend) (tOpt : Option Texture)
    (e : String) (ttr : List WEvent)
    (h : TextureFromImage tb = (tOpt, some e, ttr)) :
    tOpt = none ∧ balancedB ttr = true := by
  unfold TextureFromImage at h
  cases hct : tb.createTexture <;> cases hcs : tb.createSampler <;>
    simp only [hct, hcs, Texture.Destroy, releaseU, Prod.mk.injEq] at h <;>
    first
    | exact ⟨h.1.symm, by rw [← h.2.2]; decide⟩
    | exact Option.noConfusion h.2.1

set_option maxHeartbeats 2000000 in
/-- A non-failed tutorial4-challenge InitState leaves numChallengeIndices at
its zero value and all loop-relevant handles live. -/
theorem t4_init_ok_shape (w : PhysicalSize) (b : Tutorial4.InitBackend)
    (s0 : Tutorial4.State) (eOpt : Option String) (tr : List WEvent)
    (h : Tutorial4.InitState w b = (some s0, eOpt, tr)) :
    s0.numChallengeIndices = 0 ∧ s0.swapChain.isSome = true ∧
    s0.device = some () ∧ s0.queue = some () := by
  unfold Tutorial4.InitState at h
  repeat' split at h
  all_goals simp only [Tutorial4.initErrExit, Prod.mk.injEq] at h
  all_goals
    first
    | exact Option.noConfusion h.1
    | (obtain rfl := Option.some.inj h.1
       exact ⟨rfl, rfl, rfl, rfl⟩)

/-- Claim C1: when a per-frame Render fails at surface-image acquisition,
the number of Resize calls before the next attempt is determined by the
message: a message containing "Lost" or "Outdated" triggers exactly one
Resize with the last known size s.size and the loop continues; a message
containing "Timeout" (and none of the structural markers) triggers zero
Resize calls and the loop continues. -/
theorem loop_acquire_failure_classification (s : State) (fb : FrameBackend)
    (scb : Except String Unit) (e : String) (c cfg : SwapChainDescriptor)
    (hsc : s.swapChain = some c) (hcfg : s.config = some cfg)
    (hdev : s.device = some ()) (hacq : fb.acquire = Except.error e)
    (hscb : scb = Except.ok ()) :
    ((containsStr e lostStr = true ∨ containsStr e outdatedStr = true) →
      ∃ s' t, loopBody s fb scb = some (s', t, [s.size])) ∧
    (containsStr e lostStr = false → containsStr e outdatedStr = false →
      containsStr e timeoutStr = true →
      loopBody s fb scb = some (s, [], [])) := by
  subst hscb
  have hrender : s.Render fb = some (Except.error e, []) := by
    unfold State.Render
    rw [hsc, hacq]
  have hresize : ∃ s' t', s.Resize s.size (Except.ok ()) = some (s', t') := by
    unfold State.Resize
    by_cases hpos : s.size.Width > 0 ∧ s.size.Height > 0
    · rw [hcfg, hdev]
      simp [hpos]
    · simp [hpos]
  obtain ⟨s', t', hrz⟩ := hresize
  constructor
  · intro hcase
    unfold loopBody
    rw [hrender]
    rcases hcase with h | h
    · simp only [h]
      rw [hrz]
      exact ⟨s', t', rfl⟩
    · by_cases hl : containsStr e lostStr = true
      · simp only [hl]
        rw [hrz]
        exact ⟨s', t', rfl⟩
      · simp only [Bool.not_eq_true] at hl
        simp only [hl, h]
        rw [hrz]
        exact ⟨s', t', rfl⟩
  · intro h1 h2 h3
    unfold loopBody
    rw [hrender]
    simp [h1, h2, h3]

/-- Witness for C1: an "Outdated" failure on the sample state performs one
Resize with the current size; a "Timeout" failure performs none. -/
theorem loop_acquire_failure_classification_witness :
    (∃ s' t, loopBody sampleState fbOutdated (Except.ok ()) =
      some (s', t, [sampleState.size])) ∧
    loopBody sampleState fbTimeout (Except.ok ()) = some (sampleState, [], []) :=
  ⟨(loop_acquire_failure_classification sampleState fbOutdated (Except.ok ())
      outdatedStr sampleConfig sampleConfig rfl rfl rfl rfl rfl).1
      (Or.inr (by decide)),
   (loop_acquire_failure_classification sampleState fbTimeout (Except.ok ())
      timeoutStr sampleConfig sampleConfig rfl rfl rfl rfl rfl).2
      (by decide) (by decide) (by decide)⟩

/-- Claim C2: a Render failure whose message matches none of "Lost",
"Outdated" or "Timeout" is fatal: the loop performs exactly the one failing
Render call, issues no further ones regardless of the remaining schedule,
and the process terminates abnormally (panic, final state none). -/
theorem loop_unrecognized_failure_fatal (s : State) (fb : FrameBackend)
    (scb : Except String Unit) (e : String) (c : SwapChainDescriptor)
    (rest : List (FrameBackend × Except String Unit))
    (hsc : s.swapChain = some c) (hacq : fb.acquire = Except.error e)
    (h1 : containsStr e lostStr = false)
    (h2 : containsStr e outdatedStr = false)
    (h3 : containsStr e timeoutStr = false) :
    runLoop s ((fb, scb) :: rest) = (1, none) := by
  have hrender : s.Render fb = some (Except.error e, []) := by
    unfold State.Render
    rw [hsc, hacq]
  have hbody : loopBody s fb scb = none := by
    unfold loopBody
    rw [hrender]
    simp only [h1, h2, h3]
    rfl
  unfold runLoop
  rw [hbody]

/-- Witness for C2: an "Unknown" failure stops the loop after one Render
call even though another healthy frame was scheduled. -/
theorem loop_unrecognized_failure_fatal_witness :
    runLoop sampleState [(fbUnknown, Except.ok ()), (fbGood, Except.ok ())] =
      (1, none) :=
  loop_unrecognized_failure_fatal sampleState fbUnknown (Except.ok ())
    unknownStr sampleConfig [(fbGood, Except.ok ())] rfl rfl
    (by decide) (by decide) (by decide)

/-- Claim C3: Resize with a zero width or height is a silent no-op: the
state (size, every config field, swap chain) is returned unchanged, no GPU
call is performed, and no error or panic occurs. -/
theorem resize_zero_dimension_noop (s : State) (newSize : PhysicalSize)
    (scb : Except String Unit)
    (h : newSize.Width = 0 ∨ newSize.Height = 0) :
    s.Resize newSize scb = some (s, []) := by
  unfold State.Resize
  rcases h with h | h <;> simp [h]

/-- Witness for C3: resizing the sample state to width 0 changes nothing
and performs no GPU call. -/
theorem resize_zero_dimension_noop_witness :
    sampleState.Resize ⟨0, 480⟩ (Except.ok ()) = some (sampleState, []) :=
  resize_zero_dimension_noop sampleState ⟨0, 480⟩ (Except.ok ()) (Or.inl rfl)

/-- Claim C4: Resize with positive dimensions updates s.size and the config
dimensions to exactly the new values, drops the old swap chain if one
exists, and creates a new swap chain from the updated config, so the
rebuilt swap chain is sized exactly (newWidth, newHeight); if the device
rejects the new configuration the program panics. -/
theorem resize_positive_rebuilds_swapchain (s : State) (newSize : PhysicalSize)
    (scb : Except String Unit) (cfg : SwapChainDescriptor)
    (hw : 0 < newSize.Width) (hh : 0 < newSize.Height)
    (hcfg : s.config = some cfg) (hdev : s.device = some ()) :
    (∀ u, scb = Except.ok u →
      ∃ s', s.Resize newSize scb =
          some (s', releaseSC s.swapChain ++ [WEvent.create ResKind.swapChainK]) ∧
        s'.size = newSize ∧
        s'.config = some { cfg with Width := newSize.Width, Height := newSize.Height } ∧
        s'.swapChain = some { cfg with Width := newSize.Width, Height := newSize.Height }) ∧
    (∀ e, scb = Except.error e → s.Resize newSize scb = none) := by
  constructor
  · rintro u rfl
    refine ⟨{ s with
                size := newSize
                config := some { cfg with Width := newSize.Width, Height := newSize.Height }
                swapChain := some { cfg with Width := newSize.Width, Height := newSize.Height } },
            ?_, rfl, rfl, rfl⟩
    unfold State.Resize
    rw [hcfg, hdev]
    simp [hw, hh, releaseSC]
  · rintro e rfl
    unfold State.Resize
    simp [hcfg, hdev, hw, hh]

/-- Witness for C4: resizing the sample state to 800×600 drops the old
swap chain, creates one sized 800×600, and a rejected configuration
panics. -/
theorem resize_positive_rebuilds_swapchain_witness :
    (∃ s', sampleState.Resize ⟨800, 600⟩ (Except.ok ()) =
        some (s', releaseSC sampleState.swapChain ++ [WEvent.create ResKind.swapChainK]) ∧
      s'.size = ⟨800, 600⟩ ∧
      s'.config = some { sampleConfig with Width := 800, Height := 600 } ∧
      s'.swapChain = some { sampleConfig with Width := 800, Height := 600 }) ∧
    sampleState.Resize ⟨800, 600⟩ (Except.error unknownStr) = none :=
  ⟨(resize_positive_rebuilds_swapchain sampleState ⟨800, 600⟩ (Except.ok ())
      sampleConfig (by decide) (by decide) rfl rfl).1 () rfl,
   (resize_positive_rebuilds_swapchain sampleState ⟨800, 600⟩
      (Except.error unknownStr) sampleConfig (by decide) (by decide) rfl rfl).2
      unknownStr rfl⟩

/-- Claim C5: with a healthy backend each Render records exactly one render
pass whose color attachment clears, submits exactly one command buffer,
presents exactly once and returns success; Render never creates a swap
chain, so after a successful initialization followed by any number of
successful Render calls the swap chain has been created exactly once. -/
theorem render_success_effects_and_single_swapchain_creation
    (s : State) (fb : FrameBackend) (c : SwapChainDescriptor)
    (hsc : s.swapChain = some c) (hdev : s.device = some ())
    (hq : s.queue = some ()) (hacq : fb.acquire = Except.ok ())
    (henc : fb.encoder = Except.ok ()) :
    (∃ t, s.Render fb = some (Except.ok (), t) ∧
      t.countP (isBeginPass LoadOp.Clear) = 1 ∧
      t.countP isSubmitEv = 1 ∧
      t.countP isPresentEv = 1 ∧
      createCount ResKind.swapChainK t = 0) ∧
    (∀ (w : PhysicalSize) (b : InitBackend) (s0 : State) (tr : List WEvent)
       (n : Nat) (t : List WEvent),
      InitState w b = (some s0, none, tr) → renderN s0 fb n = some t →
      createCount ResKind.swapChainK (tr ++ t) = 1) := by
  constructor
  · refine ⟨[WEvent.create ResKind.viewK, WEvent.beginRenderPass LoadOp.Clear,
      WEvent.setPipeline, WEvent.setBindGroup s.isSpacePressed,
      WEvent.setVertexBuffer false, WEvent.setIndexBuffer false,
      WEvent.drawIndexed s.numIndices, WEvent.endPass, WEvent.submit,
      WEvent.present, WEvent.drop ResKind.viewK], ?_, ?_, ?_, ?_, ?_⟩
    · unfold State.Render
      rw [hsc, hacq, hdev, henc, hq]
    all_goals
      simp [isBeginPass, isSubmitEv, isPresentEv, createCount, isCreate,
        List.countP_cons, List.countP_nil]
  · intro w b s0 tr n t hinit hrn
    rw [createCount, List.countP_append, ← createCount, ← createCount]
    rw [initState_swapchain_once w b s0 tr hinit,
      renderN_no_swapchain_create s0 fb n t hrn]

/-- Witness for C5: the sample state renders with the expected one-pass
trace, and a full 640×480 initialization followed by ten successful frames
yields exactly one swap-chain creation. -/
theorem render_success_effects_and_single_swapchain_creation_witness :
    (∃ t, sampleState.Render fbGood = some (Except.ok (), t) ∧
      t.countP (isBeginPass LoadOp.Clear) = 1 ∧
      t.countP isSubmitEv = 1 ∧
      t.countP isPresentEv = 1 ∧
      createCount ResKind.swapChainK t = 0) ∧
    createCount ResKind.swapChainK
      ((InitState ⟨640, 480⟩ allOkInitBackend).2.2 ++
        (renderN initOkState fbGood 10).getD []) = 1 :=
  ⟨(render_success_effects_and_single_swapchain_creation sampleState fbGood
      sampleConfig rfl rfl rfl rfl rfl).1,
   (render_success_effects_and_single_swapchain_creation initOkState fbGood
      cfg640 rfl rfl rfl rfl rfl).2 ⟨640, 480⟩ allOkInitBackend initOkState
      (InitState ⟨640, 480⟩ allOkInitBackend).2.2 10
      ((renderN initOkState fbGood 10).getD []) (by decide) (by decide)⟩

/-- Claim C6: whenever acquisition succeeds inside Render, the acquired
view is dropped exactly once on every non-panicking exit path, including
the early return when command-encoder creation fails; when acquisition
fails, Render returns that error with no drawing and no view to release. -/
theorem render_releases_acquired_view (s : State) (fb : FrameBackend)
    (c : SwapChainDescriptor) (hsc : s.swapChain = some c)
    (hdev : s.device = some ()) (hq : s.queue = some ()) :
    (∀ u, fb.acquire = Except.ok u →
      ∃ r t, s.Render fb = some (r, t) ∧ dropCount ResKind.viewK t = 1) ∧
    (∀ e, fb.acquire = Except.error e →
      s.Render fb = some (Except.error e, [])) := by
  constructor
  · rintro u hacq
    unfold State.Render
    rw [hsc, hacq, hdev, hq]
    cases henc : fb.encoder with
    | error e => exact ⟨_, _, rfl, by decide⟩
    | ok _ =>
      exact ⟨_, _, rfl, by
        simp [dropCount, isDrop, List.countP_cons, List.countP_nil]⟩
  · rintro e hacq
    unfold State.Render
    rw [hsc, hacq]

/-- Witness for C6: on the sample state a successful acquisition leads to
exactly one view drop, and a failed acquisition returns the error with an
empty trace. -/
theorem render_releases_acquired_view_witness :
    (∃ r t, sampleState.Render fbGood = some (r, t) ∧
      dropCount ResKind.viewK t = 1) ∧
    sampleState.Render fbUnknown = some (Except.error unknownStr, []) :=
  ⟨(render_releases_acquired_view sampleState fbGood sampleConfig
      rfl rfl rfl).1 () rfl,
   (render_releases_acquired_view sampleState fbUnknown sampleConfig
      rfl rfl rfl).2 unknownStr rfl⟩

/-- Claim C7: teardown is idempotent.  After one Destroy every owned handle
field is nil; a second Destroy releases nothing (empty trace) and leaves
the state unchanged.  This holds for State.Destroy of the textured example,
for Texture.Destroy, and for tutorial4-challenge's State.Destroy. -/
theorem destroy_teardown_idempotent :
    (∀ s : State,
      ((State.Destroy s).1.surface = none ∧
       (State.Destroy s).1.swapChain = none ∧
       (State.Destroy s).1.device = none ∧
       (State.Destroy s).1.queue = none ∧
       (State.Destroy s).1.config = none ∧
       (State.Destroy s).1.renderPipeline = none ∧
       (State.Destroy s).1.vertexBuffer = none ∧
       (State.Destroy s).1.indexBuffer = none ∧
       (State.Destroy s).1.diffuseTexture = none ∧
       (State.Destroy s).1.diffuseBindGroup = none ∧
       (State.Destroy s).1.cartoonTexture = none ∧
       (State.Destroy s).1.cartoonBindGroup = none) ∧
      State.Destroy (State.Destroy s).1 = ((State.Destroy s).1, [])) ∧
    (∀ t : Texture,
      ((Texture.Destroy t).1.texture = none ∧
       (Texture.Destroy t).1.view = none ∧
       (Texture.Destroy t).1.sampler = none) ∧
      Texture.Destroy (Texture.Destroy t).1 = ((Texture.Destroy t).1, [])) ∧
    (∀ s : Tutorial4.State,
      ((Tutorial4.State.Destroy s).1.surface = none ∧
       (Tutorial4.State.Destroy s).1.swapChain = none ∧
       (Tutorial4.State.Destroy s).1.device = none ∧
       (Tutorial4.State.Destroy s).1.queue = none ∧
       (Tutorial4.State.Destroy s).1.config = none ∧
       (Tutorial4.State.Destroy s).1.renderPipeline = none ∧
       (Tutorial4.State.Destroy s).1.vertexBuffer = none ∧
       (Tutorial4.State.Destroy s).1.indexBuffer = none ∧
       (Tutorial4.State.Destroy s).1.challengeVertexBuffer = none ∧
       (Tutorial4.State.Destroy s).1.challengeIndexBuffer = none) ∧
      Tutorial4.State.Destroy (Tutorial4.State.Destroy s).1 =
        ((Tutorial4.State.Destroy s).1, [])) := by
  refine ⟨fun s => ?_, fun t => ?_, fun s => ?_⟩
  · exact ⟨⟨rfl, rfl, rfl, rfl, rfl, rfl, rfl, rfl, rfl, rfl, rfl, rfl⟩, rfl⟩
  · exact ⟨⟨rfl, rfl, rfl⟩, rfl⟩
  · exact ⟨⟨rfl, rfl, rfl, rfl, rfl, rfl, rfl, rfl, rfl, rfl⟩, rfl⟩

/-- Claim C8: initialization failure is atomic.  If InitState (or
TextureFromImage) fails at any step, the returned pointer is nil alongside
the error, and every resource created by the earlier steps has been
released: the emitted GPU trace is balanced (per-kind creations equal
drops). -/
theorem initialization_failure_atomic :
    (∀ (w : PhysicalSize) (b : InitBackend) (sOpt : Option State) (e : String)
       (tr : List WEvent),
      InitState w b = (sOpt, some e, tr) → sOpt = none ∧ balancedB tr = true) ∧
    (∀ (tb : TexBackend) (tOpt : Option Texture) (e : String)
       (ttr : List WEvent),
      TextureFromImage tb = (tOpt, some e, ttr) →
      tOpt = none ∧ balancedB ttr = true) :=
  ⟨fun w b sOpt e tr h => initState_err_atomic w b sOpt e tr h,
   fun tb tOpt e ttr h => texImage_err_atomic tb tOpt e ttr h⟩

/-- Witness for C8: a last-step InitState failure and a sampler-creation
TextureFromImage failure both return nil and leave a balanced trace. -/
theorem initialization_failure_atomic_witness :
    ((InitState ⟨640, 480⟩ idxFailInitBackend).1 = none ∧
      balancedB (InitState ⟨640, 480⟩ idxFailInitBackend).2.2 = true) ∧
    ((TextureFromImage samplerFailTexBackend).1 = none ∧
      balancedB (TextureFromImage samplerFailTexBackend).2.2 = true) :=
  ⟨initialization_failure_atomic.1 ⟨640, 480⟩ idxFailInitBackend
      (InitState ⟨640, 480⟩ idxFailInitBackend).1 unknownStr
      (InitState ⟨640, 480⟩ idxFailInitBackend).2.2 (by decide),
   initialization_failure_atomic.2 samplerFailTexBackend
      (TextureFromImage samplerFailTexBackend).1 unknownStr
      (TextureFromImage samplerFailTexBackend).2.2 (by decide)⟩

/-- Claim C9: tutorial4-challenge never assigns numChallengeIndices after
State creation, so after a successful InitState it is 0, and a Render with
useComplex true binds the challenge vertex and index buffers yet issues
DrawIndexed with index count 0. -/
theorem tutorial4_challenge_draw_count_zero (w : PhysicalSize)
    (b : Tutorial4.InitBackend) (s0 : Tutorial4.State) (tr : List WEvent)
    (fb : FrameBackend)
    (hinit : Tutorial4.InitState w b = (some s0, none, tr))
    (hacq : fb.acquire = Except.ok ()) (henc : fb.encoder = Except.ok ()) :
    s0.numChallengeIndices = 0 ∧
    ∃ t, Tutorial4.State.Render { s0 with useComplex := true } fb =
        some (Except.ok (), t) ∧
      WEvent.drawIndexed 0 ∈ t ∧ WEvent.setVertexBuffer true ∈ t ∧
      WEvent.setIndexBuffer true ∈ t := by
  obtain ⟨hn, hsc, hdev, hq⟩ := t4_init_ok_shape w b s0 none tr hinit
  refine ⟨hn, ?_⟩
  rw [Option.isSome_iff_exists] at hsc
  obtain ⟨c, hc⟩ := hsc
  unfold Tutorial4.State.Render
  simp only [hc, hacq, hdev, hq, henc, hn]
  exact ⟨_, rfl, by simp, by simp, by simp⟩

/-- Witness for C9: a fully successful 640×480 tutorial4-challenge
initialization yields numChallengeIndices 0 and a complex-mode frame whose
draw call has index count 0 with the challenge buffers bound. -/
theorem tutorial4_challenge_draw_count_zero_witness :
    t4InitOkState.numChallengeIndices = 0 ∧
    ∃ t, Tutorial4.State.Render { t4InitOkState with useComplex := true }
        fbGood = some (Except.ok (), t) ∧
      WEvent.drawIndexed 0 ∈ t ∧ WEvent.setVertexBuffer true ∈ t ∧
      WEvent.setIndexBuffer true ∈ t :=
  tutorial4_challenge_draw_count_zero ⟨640, 480⟩ t4AllOkBackend t4InitOkState
    (Tutorial4.InitState ⟨640, 480⟩ t4AllOkBackend).2.2 fbGood
    (by decide) rfl rfl

set_option maxRecDepth 4000 in
/-- Claim C10: the triangle-fan loop of tutorial4-challenge writes exactly
294 index entries, of the form (i+1, i, 0) for i from 1 to 98, and every
generated index is strictly below numVertices = 100, so each one refers to
an existing challenge vertex. -/
theorem tutorial4_challenge_indices_in_bounds :
    Tutorial4.challengeIndices.length = 294 ∧
    Tutorial4.challengeIndices =
      (List.range Tutorial4.numTriangles).flatMap (fun j => [j + 2, j + 1, 0]) ∧
    Tutorial4.challengeIndices.all
      (fun x => decide (x < Tutorial4.numVertices)) = true := by
  refine ⟨by decide, by decide, by decide⟩
